import Mathlib

/-!
# Verification development for the py_vsb_gatekeeper repository

Shallow embedding of the verification core of the `py_vsb_gatekeeper`
Discord gatekeeper bot (CAS single-sign-on verification), together with
theorems settling the frozen claims about its specification.

The embedding follows the Python sources:
* `src/bot/services/cas_service.py` — state-token issue/redemption
  (`handle_callback`), CAS ticket validation (`validate_cas_ticket`), and
  audit logging (`_log_verification_audit`);
* `src/bot/services/verification_service.py` — profile persistence
  (`save_verification_data`), the identity classifier
  (`_determine_user_type`), forced re-verification
  (`require_reverification`), and role preservation/restoration
  (`preserve_roles` / `restore_roles` / `assign_verified_roles`);
* `src/bot/web/app.py` — the callback orchestration (`handle_callback`
  web handler), modelled as `web_process_callback`;
* `src/bot/db/models.py` — the record shapes.

Conventions of the embedding:
* timestamps are natural numbers (`Nat`); the database session is passed
  explicitly as lists of records; SQLAlchemy `scalar_one_or_none` over a
  primary-key filter becomes `List.find?` over the record list, and an ORM
  in-place mutation becomes `updFirst`;
* the SHA-256 hex digest is an abstract parameter `h : String → String`
  (the code only ever compares digests for string equality);
* XML elements carry namespace-local tag names (the code strips the
  `cas` namespace when it reads tags);
* Python `None` text nodes are already collapsed to `""`, matching the
  `(text or "")` idiom used at every read site.
-/

set_option linter.unusedVariables false

namespace Gatekeeper

/-! ## String containment (Python `needle in haystack`) -/

/-- Does the character list begin with `needle`? -/
def startsWithChars : List Char → List Char → Bool
  | _, [] => true
  | [], _ :: _ => false
  | h :: hs, n :: ns => h == n && startsWithChars hs ns

/-- Does the character list contain `needle` as a contiguous run?
Mirrors Python's substring operator `needle in hay`. -/
def containsChars (needle : List Char) : List Char → Bool
  | [] => needle.isEmpty
  | h :: t => startsWithChars (h :: t) needle || containsChars needle t

/-- Python `needle in hay` on strings. -/
def strContains (hay needle : String) : Bool :=
  containsChars needle.data hay.data

/-- Python `s.lower()` (ASCII case folding, which covers every keyword
and login the verification core lowercases). -/
def strLower (s : String) : String :=
  ⟨s.data.map Char.toLower⟩

/-! ## Identity classifier — `VerificationService._determine_user_type`
(src/bot/services/verification_service.py lines 158-176) -/

/-- The elevated-affiliation keyword set hard-coded in
`_determine_user_type`. -/
def teacher_affiliations : List String :=
  ["employee", "faculty", "staff", "teacher"]

/-- The elevated-group keyword set hard-coded in `_determine_user_type`. -/
def teacher_groups : List String :=
  ["employees", "staff", "faculty", "teachers"]

/-- `VerificationService._determine_user_type(groups, affiliations)`:
returns 2 (teacher/Elevated) when any affiliation, lower-cased, contains a
teacher-affiliation keyword; otherwise 2 when any group, lower-cased,
contains a teacher-group keyword; otherwise 0 (student/Standard). -/
def determine_user_type (groups affiliations : List String) : Nat :=
  if affiliations.any (fun a => teacher_affiliations.any (fun ta => strContains (strLower a) ta)) then
    2
  else if groups.any (fun g => teacher_groups.any (fun tg => strContains (strLower g) tg)) then
    2
  else
    0

/-! ## XML model and the ticket validator — `CASService.validate_cas_ticket`
(src/bot/services/cas_service.py lines 203-265) -/

/-- A parsed XML element; tags are namespace-local names and a missing
text node is represented by `""`. -/
inductive XmlElem where
  | node (tag : String) (attrs : List (String × String)) (text : String)
      (children : List XmlElem)

def XmlElem.tag : XmlElem → String
  | .node t _ _ _ => t

def XmlElem.attrs : XmlElem → List (String × String)
  | .node _ a _ _ => a

def XmlElem.text : XmlElem → String
  | .node _ _ s _ => s

def XmlElem.children : XmlElem → List XmlElem
  | .node _ _ _ c => c

/-- `Element.find(tag)`: first direct child with the given tag. -/
def XmlElem.findChild (e : XmlElem) (t : String) : Option XmlElem :=
  e.children.find? (fun c => c.tag == t)

/-- `Element.findtext(tag, default="")`. -/
def XmlElem.findText (e : XmlElem) (t : String) : String :=
  match e.findChild t with
  | some c => c.text
  | none => ""

/-- Python `dict.get k d` over the association list built by the
attribute-extraction loop (later entries overwrite earlier ones). -/
def dictGet (l : List (String × String)) (k d : String) : String :=
  match l.reverse.find? (fun p => p.1 == k) with
  | some p => p.2
  | none => d

/-- The `user_info` dictionary built by `validate_cas_ticket` on a
successful provider response. -/
structure CasUserInfo where
  uid : String
  login : String
  attributes : List (String × String)
  mail : String
  givenName : String
  sn : String
  cn : String
  groups : List String
  eduPersonAffiliation : List String
deriving DecidableEq

/-- Outcome of the outbound ticket-validation HTTP exchange, as seen by
the parsing code: the network call raised (`unreachable`), the body was
not XML (`unparseable`, the `ET.ParseError` branch), or it parsed to a
document root. -/
inductive ProviderResponse where
  | unreachable
  | unparseable
  | xml (root : XmlElem)

/-- The comma-splitting idiom
`attributes.get(k, "").split(",") if attributes.get(k) else []`. -/
def splitCsv (s : String) : List String :=
  if s == "" then [] else s.splitOn ","

/-- Attribute extraction from the `authenticationSuccess` element
(lines 231-254): `findtext` for the principal, then one dictionary entry
per child of the `attributes` element, with stripped text. -/
def parseSuccess (success : XmlElem) : CasUserInfo :=
  let username := success.findText "user"
  let attributes :=
    match success.findChild "attributes" with
    | some attrsElem => attrsElem.children.map (fun c => (c.tag, c.text.trim))
    | none => []
  { uid := username
    login := username
    attributes := attributes
    mail := dictGet attributes "mail" ""
    givenName := dictGet attributes "givenName" ""
    sn := dictGet attributes "sn" ""
    cn := dictGet attributes "cn" ""
    groups := splitCsv (dictGet attributes "groups" "")
    eduPersonAffiliation := splitCsv (dictGet attributes "eduPersonAffiliation" "") }

/-- `CASService.validate_cas_ticket`: returns the parsed user-info
dictionary on an `authenticationSuccess` response and `None` on every
other outcome — provider failure responses, unparseable bodies and
network errors alike (the failure code and message are only logged,
lines 225-229, and the two `except` arms return `None`). -/
def validate_cas_ticket (resp : ProviderResponse) : Option CasUserInfo :=
  match resp with
  | .unreachable => none
  | .unparseable => none
  | .xml root =>
    match root.findChild "authenticationSuccess" with
    | none => none
    | some success => some (parseSuccess success)

/-- The provider failure code computed (then only logged) at line 226:
`failure.attrib.get("code") if failure is not None else "UNKNOWN"`.
`none` here is Python's `None` from a failure element lacking a `code`
attribute. -/
def failure_code (root : XmlElem) : Option String :=
  match root.findChild "authenticationFailure" with
  | some f => f.attrs.lookup "code"
  | none => some "UNKNOWN"

/-- Does the response carry an `authenticationSuccess` element? -/
def respHasSuccess (resp : ProviderResponse) : Bool :=
  match resp with
  | .xml root => (root.findChild "authenticationSuccess").isSome
  | _ => false

/-! ## Record shapes — `src/bot/db/models.py` -/

/-- A `verification_states` row (the pending state token, `VerificationState`):
the primary key `state` stores the keyed SHA-256 digest, never the raw
token. -/
structure VState where
  state : String
  discord_id : Nat
  guild_id : Nat
  is_initial : Bool
  expires_at : Nat
deriving DecidableEq

/-- A `verification_audit` row (`VerificationAudit`). -/
structure AuditRecord where
  discord_id : Option Nat
  login : String
  cas_username : String
  state_sha256 : String
  ticket_sha256 : String
  result : String
  error_message : Option String
deriving DecidableEq

/-- A `users` row (`User`), restricted to the fields the verification
core reads or writes. -/
structure UserRec where
  discord_id : Nat
  login : String
  activity : Nat
  type : Nat
  real_name : String
  attributes : List (String × String)
  verified_at : Nat
  is_bot : Bool
deriving DecidableEq

/-- The JSON snapshot stored in `preserved_roles` by `preserve_roles`. -/
structure RoleSnapshot where
  role_ids : List Nat
  preserved_at : Nat
deriving DecidableEq

/-- A `user_verification_data` row (`UserVerificationData`). -/
structure VerData where
  discord_id : Nat
  cas_login : String
  cas_real_name : String
  cas_email : String
  verified_at : Nat
  last_reverified_at : Nat
  reverification_required : Bool
  reverification_reason : Option String
  reverification_requested_at : Option Nat
  reverification_wave_id : Option Nat
  preserved_roles : Option RoleSnapshot
  updated_at : Nat
deriving DecidableEq

/-! ## Store helpers: primary-key lookup and in-place update of one row -/

/-- Update the first element satisfying `p` (an ORM mutation of the row
returned by `scalar_one_or_none`). -/
def updFirst (p : α → Bool) (f : α → α) : List α → List α
  | [] => []
  | x :: xs => if p x then f x :: xs else x :: updFirst p f xs

/-- `select(UserVerificationData).where(discord_id == did)` +
`scalar_one_or_none`. -/
def findVer (vds : List VerData) (did : Nat) : Option VerData :=
  vds.find? (fun v => v.discord_id == did)

/-- `select(User).where(discord_id == did)` + `scalar_one_or_none`. -/
def findUser (users : List UserRec) (did : Nat) : Option UserRec :=
  users.find? (fun u => u.discord_id == did)

/-! ## Token redemption and callback flow — `CASService.handle_callback`
(src/bot/services/cas_service.py lines 102-201) -/

/-- The candidate digest recomputed in the redemption loop (line 138):
`sha256(f"{state}:{vs.discord_id}:{self.state_secret}")`.
`h` abstracts the SHA-256 hex digest. -/
def test_hash (h : String → String) (secret token : String) (did : Nat) : String :=
  h (token ++ ":" ++ toString did ++ ":" ++ secret)

/-- Does the stored state row match the raw token from the callback? -/
def hashMatches (h : String → String) (secret token : String) (vs : VState) : Bool :=
  test_hash h secret token vs.discord_id == vs.state

/-- The redemption scan: query all non-expired state rows
(`expires_at > now`), then take the first whose recomputed digest matches
(lines 126-145). -/
def findMatch (h : String → String) (secret token : String) (now : Nat)
    (ss : List VState) : Option VState :=
  (ss.filter (fun vs => now < vs.expires_at)).find? (hashMatches h secret token)

/-- The dictionary returned by `CASService.handle_callback`. -/
inductive CallbackResult where
  | success (discord_id guild_id : Nat) (cas : CasUserInfo)
      (is_reverification : Bool)
  | failure (error : String)
deriving DecidableEq

/-- `result.get("success")`. -/
def CallbackResult.isSuccess : CallbackResult → Bool
  | .success _ _ _ _ => true
  | .failure _ => false

/-- `CASService._log_verification_audit` (lines 267-289): builds one
audit row; the login fields fall back to `"unknown"` when the
`cas_data` dictionary is empty (the exception branch passes `{}`). -/
def log_verification_audit (h : String → String) (discord_id : Option Nat)
    (cas : Option CasUserInfo) (state_hash ticket result : String)
    (error_message : Option String) : AuditRecord :=
  { discord_id := discord_id
    login := match cas with | some c => c.login | none => "unknown"
    cas_username := match cas with | some c => c.uid | none => "unknown"
    state_sha256 := state_hash
    ticket_sha256 := h ticket
    result := result
    error_message := error_message }

/-- `CASService.handle_callback(ticket, state)`: find the matching state
row among the non-expired ones, delete it immediately, validate the CAS
ticket, and log a success audit row only on the success path.  The
return value is the result dictionary, the state table after the call,
and the audit rows written by the call.  The `except` branch of the
Python code (failure audit with a null subject) is reachable only when
the store or the audit insert itself raises, which the pure embedding
has no counterpart for; on the two modelled failure paths the code
returns before any audit write. -/
def handle_callback (h : String → String) (secret : String) (now : Nat)
    (ticket token : String) (resp : ProviderResponse) (ss : List VState) :
    CallbackResult × List VState × List AuditRecord :=
  match findMatch h secret token now ss with
  | none => (.failure "Invalid or expired verification state", ss, [])
  | some vs =>
    let ss1 := ss.erase vs
    match validate_cas_ticket resp with
    | none => (.failure "Failed to validate CAS ticket", ss1, [])
    | some cas =>
      (.success vs.discord_id vs.guild_id cas (!vs.is_initial), ss1,
        [log_verification_audit h (some vs.discord_id) (some cas) vs.state
          ticket "success" none])

/-! ## Profile persistence — `VerificationService.save_verification_data`
(src/bot/services/verification_service.py lines 70-156) -/

/-- `VerificationService.save_verification_data(discord_id, cas_data,
is_reverification)`: upsert of the `users` row and the
`user_verification_data` row.  `cas_data` is modelled as the dictionary
produced by `validate_cas_ticket` (its only producer), in which every
key is present, so `cas_data.get("cn", ...)` reads the `cn` entry. -/
def save_verification_data (now did : Nat) (cas : CasUserInfo)
    (is_reverification : Bool) (users : List UserRec) (vds : List VerData) :
    List UserRec × List VerData :=
  let login := strLower cas.login
  let email := cas.mail
  let full_name := cas.cn.trim
  let user_type := determine_user_type cas.groups cas.eduPersonAffiliation
  let users1 :=
    match findUser users did with
    | none =>
      users ++ [{ discord_id := did, login := login, activity := 1,
                  type := user_type, real_name := full_name,
                  attributes := cas.attributes, verified_at := now,
                  is_bot := false }]
    | some _ =>
      updFirst (fun u => u.discord_id == did)
        (fun u => { u with
            login := login, activity := 1, type := user_type,
            real_name := full_name, attributes := cas.attributes,
            verified_at := now }) users
  let vds1 :=
    match findVer vds did with
    | none =>
      vds ++ [{ discord_id := did, cas_login := login,
                cas_real_name := full_name, cas_email := email,
                verified_at := now, last_reverified_at := now,
                reverification_required := false,
                reverification_reason := none,
                reverification_requested_at := none,
                reverification_wave_id := none,
                preserved_roles := none, updated_at := now }]
    | some _ =>
      updFirst (fun v => v.discord_id == did)
        (fun v =>
          let v1 := { v with
            cas_login := login, cas_real_name := full_name,
            cas_email := email, last_reverified_at := now }
          let v2 :=
            if is_reverification then
              { v1 with
                reverification_required := false,
                reverification_reason := none,
                reverification_wave_id := none }
            else v1
          { v2 with updated_at := now }) vds
  (users1, vds1)

/-! ## Forced re-verification — `VerificationService.require_reverification`
(src/bot/services/verification_service.py lines 286-312) -/

/-- The two logger calls of `require_reverification`: the warning emitted
on a missing profile, and the info line emitted after marking. -/
inductive ReqLog where
  | warnedNoProfile
  | markedForReverification
deriving DecidableEq

/-- `VerificationService.require_reverification(discord_id, reason,
wave_id)`: when no profile row exists, log a warning and return normally
with the store untouched; otherwise set the re-verification flag, reason,
request timestamp and wave back-reference. -/
def require_reverification (now did : Nat) (reason : String)
    (wave_id : Option Nat) (vds : List VerData) : List VerData × ReqLog :=
  match findVer vds did with
  | none => (vds, .warnedNoProfile)
  | some _ =>
    (updFirst (fun v => v.discord_id == did)
      (fun v => { v with
          reverification_required := true,
          reverification_reason := some reason,
          reverification_requested_at := some now,
          reverification_wave_id := wave_id }) vds,
     .markedForReverification)

/-- One possible error of the spec's error taxonomy (§7). -/
inductive GateError where
  | profileNotFound
deriving DecidableEq

/-- Spec-side comparator for `require_reverification`, following the
spec's words (§4.4: `requireReverification(subject, reason, waveId?) →
fails with NotFound when no profile exists`), to be diffed against the
source embedding `require_reverification`. -/
def require_reverification_spec (now did : Nat) (reason : String)
    (wave_id : Option Nat) (vds : List VerData) :
    Except GateError (List VerData) :=
  match findVer vds did with
  | none => .error .profileNotFound
  | some _ =>
    .ok (updFirst (fun v => v.discord_id == did)
      (fun v => { v with
          reverification_required := true,
          reverification_reason := some reason,
          reverification_requested_at := some now,
          reverification_wave_id := wave_id }) vds)

/-! ## Role preservation and restoration —
`VerificationService.preserve_roles` / `restore_roles` /
`assign_verified_roles`
(src/bot/services/verification_service.py lines 178-284) -/

/-- The slice of the external Discord guild the role code reads:
`guild.default_role.id` and `guild.get_role(role_id)` (which resolves
exactly the ids in `role_ids`). -/
structure Guild where
  default_role_id : Nat
  role_ids : List Nat
deriving DecidableEq

/-- `guild.get_role(r)` is not `None`. -/
def Guild.hasRole (g : Guild) (r : Nat) : Bool :=
  g.role_ids.contains r

/-- The slice of `discord.Member` the role code reads: `member.id` and
the current role-id set `member.roles`. -/
structure Member where
  id : Nat
  roles : List Nat
deriving DecidableEq

/-- The configuration fields `assign_verified_roles` reads. -/
structure RoleConfig where
  teacher_role_id : Nat
  student_role_id : Nat
deriving DecidableEq

/-- The snapshot value `preserve_roles` stores: the member's current
role ids minus the guild's everyone role, with the snapshot
timestamp. -/
def snapOf (g : Guild) (m : Member) (now : Nat) : RoleSnapshot :=
  { role_ids := m.roles.filter (fun r => r != g.default_role_id),
    preserved_at := now }

/-- `VerificationService.preserve_roles(member)`: requires an existing
profile row; stores the member's current role ids minus the guild's
everyone role into `preserved_roles` with a timestamp.  With no profile
row it logs a warning and leaves the store untouched. -/
def preserve_roles (now : Nat) (g : Guild) (m : Member)
    (vds : List VerData) : List VerData :=
  match findVer vds m.id with
  | none => vds
  | some _ =>
    updFirst (fun v => v.discord_id == m.id)
      (fun v => { v with preserved_roles := some (snapOf g m now) }) vds

/-- `VerificationService.assign_verified_roles(member, cas_login)`:
grants the teacher or student role according to the stored `users.type`.
Returns the role ids actually granted; `addOk` models whether
`member.add_roles` succeeds (the `discord.Forbidden` branch only logs).
When the `users` row is missing, or the configured role does not resolve
in the guild, nothing is granted. -/
def assign_verified_roles (cfg : RoleConfig) (g : Guild) (m : Member)
    (addOk : Bool) (users : List UserRec) : List Nat :=
  match findUser users m.id with
  | none => []
  | some u =>
    let target := if u.type == 2 then cfg.teacher_role_id else cfg.student_role_id
    let roles_to_add := if g.hasRole target then [target] else []
    if roles_to_add.isEmpty then []
    else if addOk then roles_to_add
    else []

/-- `VerificationService.restore_roles(member)`: with no profile row or
no stored snapshot, falls back to `assign_verified_roles`; otherwise
resolves the snapshotted role ids against the guild and, when the
resolved list is non-empty, attempts the grant — clearing the snapshot
only after a successful `add_roles` (lines 272-284: the clearing commit
sits inside the `try` after the grant, and is skipped both when
`roles_to_add` is empty and when the grant raises).  Returns the granted
role ids and the store after the call. -/
def restore_roles (cfg : RoleConfig) (g : Guild) (m : Member)
    (addOk : Bool) (users : List UserRec) (vds : List VerData) :
    List Nat × List VerData :=
  match findVer vds m.id with
  | none => (assign_verified_roles cfg g m addOk users, vds)
  | some vd =>
    match vd.preserved_roles with
    | none => (assign_verified_roles cfg g m addOk users, vds)
    | some snap =>
      let roles_to_add := snap.role_ids.filter g.hasRole
      if roles_to_add.isEmpty then ([], vds)
      else if addOk then
        (roles_to_add,
         updFirst (fun v => v.discord_id == m.id)
           (fun v => { v with preserved_roles := none }) vds)
      else ([], vds)

/-! ## Web-layer orchestration — `OAuthWebServer.handle_callback`
(src/bot/web/app.py lines 63-153) -/

/-- The callback endpoint's orchestration around the verification core:
run `CASService.handle_callback`; on a non-success result return the
error page leaving the profile stores untouched; on success call
`save_verification_data`.  (The subsequent role grant/restore on the
success path needs the guild member and is modelled separately by
`assign_verified_roles` / `restore_roles`.) -/
def web_process_callback (h : String → String) (secret : String) (now : Nat)
    (ticket token : String) (resp : ProviderResponse) (ss : List VState)
    (users : List UserRec) (vds : List VerData) :
    (CallbackResult × List VState × List AuditRecord) ×
      List UserRec × List VerData :=
  let r := handle_callback h secret now ticket token resp ss
  match r.1 with
  | .failure _ => (r, users, vds)
  | .success did _ cas is_rev =>
    let s := save_verification_data now did cas is_rev users vds
    (r, s.1, s.2)

/-! ## Re-verification wave scheduler

Modelled from the spec: the repository declares only the
`VerificationWave` and `VerificationWaveUser` tables
(src/bot/db/models.py lines 158-219); no `createWave` implementation
exists under src/.  The definitions below follow §4.6 of the spec:
enumerate the target-role holders, reject `dailyBatchPercent ≤ 0` or
`windowDays ≤ 0`, and distribute the subjects into per-day cohorts of
`ceil(totalUsers × dailyBatchPercent / 100)` subjects per day, day `d`
receiving the `d`-th consecutive batch, with no subject assigned
twice. -/

/-- Ceiling division on naturals. -/
def ceilDiv (a b : Nat) : Nat :=
  (a + b - 1) / b

/-- Modelled from the spec: the per-day cohort size
`ceil(totalUsers × dailyBatchPercent / 100)` of §4.6. -/
def dailyBatchSize (totalUsers percent : Nat) : Nat :=
  ceilDiv (totalUsers * percent) 100

/-- Split a list into consecutive chunks of `batch` elements (the last
chunk may be shorter); `fuel` bounds the recursion and any value at
least the list's length is exact. -/
def chunkListFuel (batch : Nat) : Nat → List α → List (List α)
  | _, [] => []
  | 0, l => [l]
  | fuel + 1, x :: xs =>
    (x :: xs.take (batch - 1)) :: chunkListFuel batch fuel (xs.drop (batch - 1))

/-- Split a list into consecutive chunks of `batch` elements. -/
def chunkList (batch : Nat) (l : List α) : List (List α) :=
  chunkListFuel batch l.length l

/-- Modelled from the spec: wave-creation configuration error (§4.6:
`dailyBatchPercent ≤ 0` or `windowDays ≤ 0` is rejected at creation). -/
inductive WaveError where
  | invalidConfig
deriving DecidableEq

/-- Modelled from the spec: `createWave(targetRole, windowDays,
dailyBatchPercent)` (§4.6), with the target-role holders passed as the
`subjects` list.  Returns the per-day cohorts, day `d` of
`[today, today + windowDays)` receiving cohort `d`. -/
def createWave (subjects : List Nat) (windowDays dailyBatchPercent : Int) :
    Except WaveError (List (List Nat)) :=
  if windowDays ≤ 0 ∨ dailyBatchPercent ≤ 0 then
    .error .invalidConfig
  else
    .ok (chunkList (dailyBatchSize subjects.length dailyBatchPercent.toNat) subjects)

/-! ## Helper lemmas on the store primitives -/

theorem find?_updFirst (p : α → Bool) (f : α → α) (l : List α)
    (hf : ∀ a, p a = true → p (f a) = true) :
    (updFirst p f l).find? p = (l.find? p).map f := by
  induction l with
  | nil => rfl
  | cons x xs ih =>
    by_cases hx : p x = true
    · rw [updFirst, if_pos hx, List.find?_cons_of_pos _ (hf x hx),
        List.find?_cons_of_pos _ hx]
      rfl
    · rw [updFirst, if_neg hx, List.find?_cons_of_neg _ hx,
        List.find?_cons_of_neg _ hx, ih]

theorem find?_append_of_none (p : α → Bool) (l1 l2 : List α)
    (h : l1.find? p = none) :
    (l1 ++ l2).find? p = l2.find? p := by
  induction l1 with
  | nil => rfl
  | cons x xs ih =>
    by_cases hx : p x = true
    · rw [List.find?_cons_of_pos _ hx] at h; cases h
    · rw [List.find?_cons_of_neg _ hx] at h
      rw [List.cons_append, List.find?_cons_of_neg _ hx, ih h]

theorem updFirst_of_find?_none (p : α → Bool) (f : α → α) (l : List α)
    (h : l.find? p = none) : updFirst p f l = l := by
  induction l with
  | nil => rfl
  | cons x xs ih =>
    by_cases hx : p x = true
    · rw [List.find?_cons_of_pos _ hx] at h; cases h
    · rw [List.find?_cons_of_neg _ hx] at h
      rw [updFirst, if_neg hx, ih h]

/-! ## Helper lemmas on chunking -/

theorem chunkListFuel_flatten (batch : Nat) :
    ∀ (fuel : Nat) (l : List α), l.length ≤ fuel →
      (chunkListFuel batch fuel l).flatten = l := by
  intro fuel
  induction fuel with
  | zero =>
    intro l hl
    have : l = [] := List.eq_nil_of_length_eq_zero (Nat.le_zero.mp hl)
    subst this
    rfl
  | succ n ih =>
    intro l hl
    match l with
    | [] => rfl
    | x :: xs =>
      have hlen : (xs.drop (batch - 1)).length ≤ n := by
        rw [List.length_drop]
        have : xs.length ≤ n := by
          have := hl
          simp only [List.length_cons] at this
          omega
        omega
      rw [chunkListFuel, List.flatten_cons, ih _ hlen]
      simp [List.take_append_drop]

theorem chunkList_flatten (batch : Nat) (l : List α) :
    (chunkList batch l).flatten = l :=
  chunkListFuel_flatten batch l.length l (Nat.le_refl _)

theorem chunkListFuel_sizes (batch : Nat) (hb : 0 < batch) :
    ∀ (fuel : Nat) (l : List α), l.length ≤ fuel →
      ∀ c ∈ chunkListFuel batch fuel l, c.length ≤ batch := by
  intro fuel
  induction fuel with
  | zero =>
    intro l hl c hc
    have : l = [] := List.eq_nil_of_length_eq_zero (Nat.le_zero.mp hl)
    subst this
    cases hc
  | succ n ih =>
    intro l hl c hc
    match l with
    | [] => cases hc
    | x :: xs =>
      rw [chunkListFuel] at hc
      rcases List.mem_cons.mp hc with h | h
      · subst h
        simp only [List.length_cons, List.length_take]
        omega
      · have hlen : (xs.drop (batch - 1)).length ≤ n := by
          rw [List.length_drop]
          have : xs.length ≤ n := by
            simp only [List.length_cons] at hl
            omega
          omega
        exact ih _ hlen c h

theorem chunkListFuel_count (batch : Nat) (hb : 0 < batch) :
    ∀ (fuel : Nat) (l : List α) (wd : Nat), l.length ≤ fuel →
      l.length ≤ batch * wd →
      (chunkListFuel batch fuel l).length ≤ wd := by
  intro fuel
  induction fuel with
  | zero =>
    intro l wd hl hfit
    have : l = [] := List.eq_nil_of_length_eq_zero (Nat.le_zero.mp hl)
    subst this
    simp [chunkListFuel]
  | succ n ih =>
    intro l wd hl hfit
    match l with
    | [] => simp [chunkListFuel]
    | x :: xs =>
      have hwd : 0 < wd := by
        by_contra hwd0
        have : wd = 0 := by omega
        subst this
        simp only [Nat.mul_zero, List.length_cons] at hfit
        omega
      have hsplit : batch * wd = batch * (wd - 1) + batch := by
        have h1 : batch * ((wd - 1) + 1) = batch * (wd - 1) + batch :=
          Nat.mul_succ batch (wd - 1)
        have h2 : (wd - 1) + 1 = wd := by omega
        rw [h2] at h1
        exact h1
      have hlen : (xs.drop (batch - 1)).length ≤ n := by
        rw [List.length_drop]
        simp only [List.length_cons] at hl
        omega
      have hfit' : (xs.drop (batch - 1)).length ≤ batch * (wd - 1) := by
        rw [List.length_drop]
        simp only [List.length_cons] at hfit
        omega
      rw [chunkListFuel]
      simp only [List.length_cons]
      have := ih (xs.drop (batch - 1)) (wd - 1) hlen hfit'
      omega

theorem chunkList_sizes (batch : Nat) (hb : 0 < batch) (l : List α) :
    ∀ c ∈ chunkList batch l, c.length ≤ batch :=
  chunkListFuel_sizes batch hb l.length l (Nat.le_refl _)

theorem chunkList_count (batch : Nat) (hb : 0 < batch) (l : List α)
    (wd : Nat) (hfit : l.length ≤ batch * wd) :
    (chunkList batch l).length ≤ wd :=
  chunkListFuel_count batch hb l.length l wd (Nat.le_refl _) hfit

/-! ## Concrete fixtures used by counterexamples and witnesses -/

/-- The provider failure document of Scenario B:
`<authenticationFailure code="INVALID_TICKET">…</authenticationFailure>`. -/
def invalidTicketXml : XmlElem :=
  .node "serviceResponse" [] ""
    [.node "authenticationFailure" [("code", "INVALID_TICKET")]
      "Ticket ST-12345 not recognized" []]

/-- A provider failure document with a different failure code. -/
def invalidServiceXml : XmlElem :=
  .node "serviceResponse" [] ""
    [.node "authenticationFailure" [("code", "INVALID_SERVICE")]
      "Service not allowed" []]

/-! ## C6 — the identity classifier -/

/-- C6: `classify(groups, affiliations)` (the source's
`_determine_user_type`) is a pure function into the two categories 0
(Standard/student) and 2 (Elevated/teacher); it returns Elevated exactly
when some affiliation, lower-cased, contains an elevated-affiliation
keyword, or else some group, lower-cased, contains an elevated-group
keyword; and the affiliation check takes precedence, as on the claim's
example `affiliations=["faculty"], groups=["students"]`. -/
theorem determine_user_type_classifier (groups affiliations : List String) :
    (determine_user_type groups affiliations = 2 ∨
      determine_user_type groups affiliations = 0) ∧
    (determine_user_type groups affiliations = 2 ↔
      (∃ a ∈ affiliations, ∃ ta ∈ teacher_affiliations,
        strContains (strLower a) ta = true) ∨
      (∃ gr ∈ groups, ∃ tg ∈ teacher_groups,
        strContains (strLower gr) tg = true)) ∧
    determine_user_type ["students"] ["faculty"] = 2 := by
  have key : ∀ (l ks : List String),
      (l.any (fun s => ks.any (fun k => strContains (strLower s) k)) = true) ↔
        ∃ s ∈ l, ∃ k ∈ ks, strContains (strLower s) k = true := by
    intro l ks
    simp [List.any_eq_true]
  refine ⟨?_, ?_, by decide⟩
  · unfold determine_user_type
    split_ifs <;> simp
  · unfold determine_user_type
    split_ifs with h1 h2
    · exact ⟨fun _ => Or.inl ((key _ _).mp h1), fun _ => rfl⟩
    · exact ⟨fun _ => Or.inr ((key _ _).mp h2), fun _ => rfl⟩
    · constructor
      · intro h
        exact absurd h (by decide)
      · intro h
        rcases h with h | h
        · exact absurd ((key _ _).mpr h) h1
        · exact absurd ((key _ _).mpr h) h2

/-! ## C3 — the ticket validator's failure reporting -/

/-- C3 counterexample: two provider-rejected responses carrying distinct
failure codes (`INVALID_TICKET` vs `INVALID_SERVICE`) make
`validate_cas_ticket` return the one identical value `none`, so the value
handed to the caller carries neither the provider's failure code nor its
message — the code and message are computed (`failure_code`) and then only
logged.  This refutes the claim that the validator returns a typed failure
carrying the provider's code and message. -/
theorem validate_cas_ticket_counterexample :
    validate_cas_ticket (.xml invalidTicketXml) = none ∧
    validate_cas_ticket (.xml invalidServiceXml) = none ∧
    failure_code invalidTicketXml = some "INVALID_TICKET" ∧
    failure_code invalidServiceXml = some "INVALID_SERVICE" ∧
    ("INVALID_TICKET" : String) ≠ "INVALID_SERVICE" :=
  ⟨rfl, rfl, rfl, rfl, by decide⟩

/-- C3 (amended): `validate_cas_ticket` never raises past its boundary —
it is a total function into `Option` — and returns `some` parsed
attributes exactly when the response document carries an
`authenticationSuccess` element; every other outcome (provider failure
response, unparseable body, network error) returns `none`, discarding
the provider's failure code and message rather than carrying them. -/
theorem validate_cas_ticket_discriminated (resp : ProviderResponse) :
    (validate_cas_ticket resp).isSome = respHasSuccess resp := by
  cases resp with
  | unreachable => rfl
  | unparseable => rfl
  | xml root =>
    unfold validate_cas_ticket respHasSuccess
    cases h : root.findChild "authenticationSuccess" <;> simp [h]

/-! ## C1 — audit records written by the callback flow -/

/-- A pending state row matching raw token `"tok"` for subject 7 under
secret `"sec"` when the digest is instantiated with the identity
function. -/
def cexState : VState :=
  { state := "tok:7:sec", discord_id := 7, guild_id := 1,
    is_initial := true, expires_at := 10 }

/-- C1 counterexample (Scenario B): with a valid, matching state token
and a provider response `authenticationFailure code="INVALID_TICKET"`,
the callback flow returns the validation-failure result and writes
zero audit records — not the one `result=failure` record the claim
requires.  (The profile stores are untouched, which is the part of the
claim the code does satisfy.) -/
theorem handle_callback_rejected_no_audit_counterexample :
    (web_process_callback (fun s => s) "sec" 0 "ST-1" "tok"
        (.xml invalidTicketXml) [cexState] [] []).1.1
      = .failure "Failed to validate CAS ticket" ∧
    (web_process_callback (fun s => s) "sec" 0 "ST-1" "tok"
        (.xml invalidTicketXml) [cexState] [] []).1.2.2 = [] ∧
    failure_code invalidTicketXml = some "INVALID_TICKET" :=
  ⟨rfl, rfl, rfl⟩

/-- C1 (amended): in the modelled (exception-free) execution of the
callback flow, an audit record is written exactly on the successful
path — one record, with `result = "success"` — and no audit record is
written on the invalid-state path or on the provider-rejected,
provider-unreachable and malformed-response paths (where the validator
returns `None`); on every non-success path the profile stores are
neither created nor mutated.  (The `result="failure"` audit of the
source exists only in the `except` branch, reachable when the store
itself raises, which the pure embedding has no counterpart for.) -/
theorem web_callback_audit_once (h : String → String) (secret : String)
    (now : Nat) (ticket token : String) (resp : ProviderResponse)
    (ss : List VState) (users : List UserRec) (vds : List VerData) :
    ((web_process_callback h secret now ticket token resp ss users vds).1.2.2.length
      = if (web_process_callback h secret now ticket token resp ss users vds).1.1.isSuccess
        then 1 else 0) ∧
    (∀ a ∈ (web_process_callback h secret now ticket token resp ss users vds).1.2.2,
      a.result = "success") ∧
    ((web_process_callback h secret now ticket token resp ss users vds).1.1.isSuccess = false →
      (web_process_callback h secret now ticket token resp ss users vds).2.1 = users ∧
      (web_process_callback h secret now ticket token resp ss users vds).2.2 = vds) := by
  unfold web_process_callback handle_callback
  cases hm : findMatch h secret token now ss with
  | none => simp [CallbackResult.isSuccess]
  | some vs =>
    cases hv : validate_cas_ticket resp with
    | none => simp [CallbackResult.isSuccess]
    | some cas => simp [CallbackResult.isSuccess, log_verification_audit]

/-- C1 witness: the amended theorem's non-success frame condition,
discharged on the Scenario-B input. -/
theorem web_callback_audit_once_witness :
    (web_process_callback (fun s => s) "sec" 0 "ST-1" "tok"
        (.xml invalidTicketXml) [cexState] [] []).2.1 = [] ∧
    (web_process_callback (fun s => s) "sec" 0 "ST-1" "tok"
        (.xml invalidTicketXml) [cexState] [] []).2.2 = [] :=
  (web_callback_audit_once (fun s => s) "sec" 0 "ST-1" "tok"
      (.xml invalidTicketXml) [cexState] [] []).2.2 (by decide)

/-! ## C4 — single-use token redemption -/

/-- C4: when the redemption scan matches state row `vs` (the unique
matching row), the callback flow deletes the row from the state table
before any further processing — the table after the call is `ss.erase vs`
whatever the provider response was — and a second redemption of the same
raw token against the resulting table fails with the invalid-or-expired
error, the same error produced for an unknown token. -/
theorem token_single_use (h : String → String) (secret : String)
    (now now2 : Nat) (ticket ticket2 token : String)
    (resp resp2 : ProviderResponse) (ss : List VState) (vs : VState)
    (hnd : ss.Nodup)
    (hm : findMatch h secret token now ss = some vs)
    (huniq : ∀ vs2 ∈ ss, hashMatches h secret token vs2 = true → vs2 = vs) :
    ((handle_callback h secret now ticket token resp ss).2.1 = ss.erase vs) ∧
    (handle_callback h secret now2 ticket2 token resp2
        ((handle_callback h secret now ticket token resp ss).2.1)
      = (.failure "Invalid or expired verification state", ss.erase vs, [])) := by
  have h21 : (handle_callback h secret now ticket token resp ss).2.1 = ss.erase vs := by
    unfold handle_callback
    rw [hm]
    cases validate_cas_ticket resp <;> rfl
  refine ⟨h21, ?_⟩
  rw [h21]
  have hnone : findMatch h secret token now2 (ss.erase vs) = none := by
    unfold findMatch
    apply List.find?_eq_none.mpr
    intro x hx hmx
    have hx1 : x ∈ ss.erase vs := (List.mem_filter.mp hx).1
    have hx2 : x ∈ ss := List.mem_of_mem_erase hx1
    have hxvs : x ≠ vs := ((List.Nodup.mem_erase_iff hnd).mp hx1).1
    exact hxvs (huniq x hx2 hmx)
  unfold handle_callback
  rw [hnone]

/-- C4 witness: a store holding exactly the matching row for token
`"tok"`; the first call consumes the row and the second call fails. -/
theorem token_single_use_witness :
    ((handle_callback (fun s => s) "sec" 0 "t" "tok" .unreachable
        [cexState]).2.1 = [cexState].erase cexState) ∧
    (handle_callback (fun s => s) "sec" 0 "t" "tok" .unreachable
        ((handle_callback (fun s => s) "sec" 0 "t" "tok" .unreachable
          [cexState]).2.1)
      = (.failure "Invalid or expired verification state",
          [cexState].erase cexState, [])) :=
  token_single_use (fun s => s) "sec" 0 0 "t" "t" "tok" .unreachable
    .unreachable [cexState] cexState (by decide) (by decide) (by decide)

/-! ## C5 — expired tokens -/

/-- C5: a redemption attempted at a wall-clock instant at or after every
matching row's expiry timestamp fails with the invalid-or-expired error
even though the row was never redeemed, and the result is identical to
the one produced for a completely unknown token (an empty state
table). -/
theorem token_expired_redemption (h : String → String) (secret : String)
    (now : Nat) (ticket token : String) (resp : ProviderResponse)
    (ss : List VState)
    (hexp : ∀ vs ∈ ss, hashMatches h secret token vs = true →
      vs.expires_at ≤ now) :
    handle_callback h secret now ticket token resp ss
      = (.failure "Invalid or expired verification state", ss, []) ∧
    handle_callback h secret now ticket token resp []
      = (.failure "Invalid or expired verification state", [], []) := by
  have hnone : findMatch h secret token now ss = none := by
    unfold findMatch
    apply List.find?_eq_none.mpr
    intro x hx hmx
    have hx1 := List.mem_filter.mp hx
    have h2 : now < x.expires_at := by simpa using hx1.2
    have h3 := hexp x hx1.1 hmx
    omega
  constructor
  · unfold handle_callback
    rw [hnone]
  · rfl

/-- C5 witness: a store holding one matching but expired row (expiry 10,
redeemed at 10). -/
theorem token_expired_redemption_witness :
    handle_callback (fun s => s) "sec" 10 "t" "tok" .unreachable [cexState]
      = (.failure "Invalid or expired verification state", [cexState], []) :=
  (token_expired_redemption (fun s => s) "sec" 10 "t" "tok" .unreachable
    [cexState] (by decide)).1

/-! ## C2 — forced re-verification on a missing profile -/

/-- A sample persisted verification profile. -/
def vdSample : VerData :=
  { discord_id := 42, cas_login := "ab123", cas_real_name := "A B",
    cas_email := "ab@vsb.cz", verified_at := 1, last_reverified_at := 1,
    reverification_required := false, reverification_reason := none,
    reverification_requested_at := none, reverification_wave_id := none,
    preserved_roles := none, updated_at := 1 }

/-- C2 counterexample: called on a subject with no profile,
`require_reverification` returns normally (logging a warning) with the
store unchanged — it does not fail; the spec-side comparator
`require_reverification_spec`, which follows the claim's words, fails
with `ProfileNotFound` on the same input. -/
theorem require_reverification_counterexample :
    require_reverification 0 42 "Annual check" none []
      = ([], ReqLog.warnedNoProfile) ∧
    require_reverification_spec 0 42 "Annual check" none []
      = Except.error GateError.profileNotFound :=
  ⟨rfl, rfl⟩

/-- C2 (amended): on a subject with no profile,
`require_reverification` logs a warning and returns normally, leaving
the store unchanged — in particular it never creates a profile as a
side effect — rather than failing with a `ProfileNotFound` error; on a
subject with a profile it sets `reverification_required := true` and
stamps the reason, the request timestamp and the optional wave
back-reference. -/
theorem require_reverification_behavior (now did : Nat) (reason : String)
    (wave_id : Option Nat) (vds : List VerData) :
    (findVer vds did = none →
      require_reverification now did reason wave_id vds
        = (vds, ReqLog.warnedNoProfile)) ∧
    (∀ p, findVer vds did = some p →
      (require_reverification now did reason wave_id vds).2
        = ReqLog.markedForReverification ∧
      findVer (require_reverification now did reason wave_id vds).1 did
        = some { p with
            reverification_required := true,
            reverification_reason := some reason,
            reverification_requested_at := some now,
            reverification_wave_id := wave_id }) := by
  constructor
  · intro h0
    unfold require_reverification
    rw [h0]
  · intro p hp
    unfold require_reverification
    rw [hp]
    refine ⟨rfl, ?_⟩
    show findVer (updFirst _ _ vds) did = _
    unfold findVer at hp ⊢
    rw [find?_updFirst _ _ _ ?pres, hp]
    case pres =>
      intro a ha
      exact ha
    rfl

/-- C2 witness: the amended theorem at a missing profile (empty store)
and at a present profile. -/
theorem require_reverification_behavior_witness :
    require_reverification 5 42 "Annual check" none []
      = ([], ReqLog.warnedNoProfile) ∧
    findVer (require_reverification 5 42 "Annual check" (some 3) [vdSample]).1 42
      = some { vdSample with
          reverification_required := true,
          reverification_reason := some "Annual check",
          reverification_requested_at := some 5,
          reverification_wave_id := some 3 } :=
  ⟨(require_reverification_behavior 5 42 "Annual check" none []).1 (by decide),
   ((require_reverification_behavior 5 42 "Annual check" (some 3) [vdSample]).2
      vdSample (by decide)).2⟩

/-! ## C7 — profile upsert on successful validation -/

/-- C7: `save_verification_data` upserts the durable profile.  On a
subject with no profile row it creates one with
`verified_at = last_reverified_at = now` and
`reverification_required = false`; on a subject with an existing row it
updates the login/name/contact attributes and sets
`last_reverified_at = now`, and exactly when the call is flagged as a
re-verification it clears `reverification_required`,
`reverification_reason` and `reverification_wave_id` (so in particular a
re-verification call resolving an outstanding forced re-verification
clears all three). -/
theorem save_verification_data_upsert (now did : Nat) (cas : CasUserInfo)
    (is_rev : Bool) (users : List UserRec) (vds : List VerData) :
    (findVer vds did = none →
      findVer (save_verification_data now did cas is_rev users vds).2 did
        = some { discord_id := did, cas_login := strLower cas.login,
                 cas_real_name := cas.cn.trim, cas_email := cas.mail,
                 verified_at := now, last_reverified_at := now,
                 reverification_required := false,
                 reverification_reason := none,
                 reverification_requested_at := none,
                 reverification_wave_id := none,
                 preserved_roles := none, updated_at := now }) ∧
    (∀ p, findVer vds did = some p →
      findVer (save_verification_data now did cas is_rev users vds).2 did
        = some { p with
            cas_login := strLower cas.login,
            cas_real_name := cas.cn.trim, cas_email := cas.mail,
            last_reverified_at := now, updated_at := now,
            reverification_required :=
              if is_rev then false else p.reverification_required,
            reverification_reason :=
              if is_rev then none else p.reverification_reason,
            reverification_wave_id :=
              if is_rev then none else p.reverification_wave_id }) := by
  constructor
  · intro h0
    unfold save_verification_data
    rw [h0]
    show findVer (vds ++ [_]) did = _
    unfold findVer at h0 ⊢
    rw [find?_append_of_none _ _ _ h0]
    rw [List.find?_cons_of_pos _ (by simp)]
  · intro p hp
    unfold save_verification_data
    rw [hp]
    show findVer (updFirst _ _ vds) did = _
    unfold findVer at hp ⊢
    rw [find?_updFirst _ _ _ ?pres, hp]
    case pres =>
      intro a ha
      cases is_rev <;> simpa using ha
    cases is_rev <;> rfl

/-- The attribute set of Scenario A: principal `jan.novak` with
`eduPersonAffiliation=faculty`. -/
def casSample : CasUserInfo :=
  { uid := "jan.novak", login := "jan.novak",
    attributes := [("cn", "Jan Novak")], mail := "jan.novak@vsb.cz",
    givenName := "Jan", sn := "Novak", cn := "Jan Novak",
    groups := [], eduPersonAffiliation := ["faculty"] }

/-- A profile with an outstanding forced re-verification (Scenario C). -/
def vdReq : VerData :=
  { vdSample with
      reverification_required := true,
      reverification_reason := some "Annual check",
      reverification_requested_at := some 2,
      reverification_wave_id := some 1 }

/-- C7 witness: first success on an empty store creates the profile;
a re-verification success on a profile with an outstanding forced
re-verification clears the flag, the reason and the wave id. -/
theorem save_verification_data_upsert_witness :
    findVer (save_verification_data 9 42 casSample false [] []).2 42
      = some { discord_id := 42, cas_login := strLower casSample.login,
               cas_real_name := casSample.cn.trim, cas_email := casSample.mail,
               verified_at := 9, last_reverified_at := 9,
               reverification_required := false,
               reverification_reason := none,
               reverification_requested_at := none,
               reverification_wave_id := none,
               preserved_roles := none, updated_at := 9 } ∧
    findVer (save_verification_data 9 42 casSample true [] [vdReq]).2 42
      = some { vdReq with
          cas_login := strLower casSample.login,
          cas_real_name := casSample.cn.trim, cas_email := casSample.mail,
          last_reverified_at := 9, updated_at := 9,
          reverification_required := false,
          reverification_reason := none,
          reverification_wave_id := none } :=
  ⟨(save_verification_data_upsert 9 42 casSample false [] []).1 (by decide),
   by
    have h := (save_verification_data_upsert 9 42 casSample true [] [vdReq]).2
      vdReq (by decide)
    simpa using h⟩

/-! ## Behavior lemmas for role preservation and restoration -/

theorem preserve_roles_of_profile (now : Nat) (g : Guild) (m : Member)
    (vds : List VerData) (vd : VerData)
    (hv : findVer vds m.id = some vd) :
    findVer (preserve_roles now g m vds) m.id
      = some { vd with preserved_roles := some (snapOf g m now) } := by
  unfold preserve_roles
  split
  next hnone => rw [hv] at hnone; cases hnone
  next vd2 hsome =>
    unfold findVer at hv ⊢
    rw [find?_updFirst _ _ _ ?keep, hv]
    case keep =>
      intro a ha
      exact ha
    rfl

theorem assign_verified_roles_of_user (cfg : RoleConfig) (g : Guild)
    (m : Member) (users : List UserRec) (u : UserRec)
    (hu : findUser users m.id = some u)
    (hdef : g.hasRole (if u.type == 2 then cfg.teacher_role_id
      else cfg.student_role_id) = true) :
    assign_verified_roles cfg g m true users
      = [if u.type == 2 then cfg.teacher_role_id else cfg.student_role_id] := by
  unfold assign_verified_roles
  split
  next hnone => rw [hu] at hnone; cases hnone
  next u2 hsome =>
    rw [hu] at hsome
    injection hsome with h
    subst h
    cases ht : u.type == 2 with
    | true =>
      simp only [ht] at hdef ⊢
      simp at hdef
      simp [hdef]
    | false =>
      simp only [ht] at hdef ⊢
      simp at hdef
      simp [hdef]

theorem restore_roles_of_snapshot (cfg : RoleConfig) (g : Guild) (m : Member)
    (users : List UserRec) (vds : List VerData) (vd : VerData)
    (snap : RoleSnapshot)
    (hv : findVer vds m.id = some vd)
    (hs : vd.preserved_roles = some snap)
    (hne : snap.role_ids.filter g.hasRole ≠ []) :
    restore_roles cfg g m true users vds
      = (snap.role_ids.filter g.hasRole,
         updFirst (fun v => v.discord_id == m.id)
           (fun v => { v with preserved_roles := none }) vds) := by
  unfold restore_roles
  split
  next hnone => rw [hv] at hnone; cases hnone
  next vd2 hsome =>
    rw [hv] at hsome
    injection hsome with h
    subst h
    split
    next hsn => rw [hs] at hsn; cases hsn
    next snap2 hsn =>
      rw [hs] at hsn
      injection hsn with h2
      subst h2
      have hie : (snap.role_ids.filter g.hasRole).isEmpty = false := by
        cases hfl : snap.role_ids.filter g.hasRole with
        | nil => exact absurd hfl hne
        | cons a t => rfl
      simp [hie]

theorem restore_roles_of_no_snapshot (cfg : RoleConfig) (g : Guild)
    (m : Member) (addOk : Bool) (users : List UserRec) (vds : List VerData)
    (vd : VerData)
    (hv : findVer vds m.id = some vd)
    (hs : vd.preserved_roles = none) :
    restore_roles cfg g m addOk users vds
      = (assign_verified_roles cfg g m addOk users, vds) := by
  unfold restore_roles
  split
  next hnone => rfl
  next vd2 hsome =>
    rw [hv] at hsome
    injection hsome with h
    subst h
    split
    next hsn => rfl
    next snap2 hsn => rw [hs] at hsn; cases hsn

/-! ## C8 — snapshot/restore round trip -/

/-- A guild resolving the everyone role 100, the default roles 200
(student) and 300 (teacher), and the ordinary roles 10 and 20. -/
def c8guild : Guild :=
  { default_role_id := 100, role_ids := [100, 200, 300, 10, 20] }

def c8cfg : RoleConfig :=
  { teacher_role_id := 300, student_role_id := 200 }

/-- A member holding the everyone role and two ordinary roles. -/
def c8member : Member :=
  { id := 1, roles := [100, 10, 20] }

/-- The same subject holding only the everyone role. -/
def c8memberBare : Member :=
  { id := 1, roles := [100] }

def c8user : UserRec :=
  { discord_id := 1, login := "cd456", activity := 1, type := 0,
    real_name := "C D", attributes := [], verified_at := 0, is_bot := false }

def c8vd : VerData :=
  { vdSample with discord_id := 1, cas_login := "cd456" }

/-- C8 counterexample: for a subject whose current roles are exactly the
everyone role, the snapshot stores the empty role list; `restore` then
returns the snapshotted (empty) set but does **not** clear the stored
snapshot, and a second restore again yields the empty set from the stale
snapshot instead of the category default (the student role 200 that
`assign_verified_roles` would grant).  This refutes both the "clears the
stored snapshot" and the "second restore yields the classifier-derived
default" parts of the claim. -/
theorem snapshot_restore_counterexample :
    (restore_roles c8cfg c8guild c8memberBare true [c8user]
        (preserve_roles 7 c8guild c8memberBare [c8vd])).1 = [] ∧
    (restore_roles c8cfg c8guild c8memberBare true [c8user]
        (preserve_roles 7 c8guild c8memberBare [c8vd])).2
      = [{ c8vd with preserved_roles := some (snapOf c8guild c8memberBare 7) }] ∧
    (snapOf c8guild c8memberBare 7).role_ids = [] ∧
    (restore_roles c8cfg c8guild c8memberBare true [c8user]
        (restore_roles c8cfg c8guild c8memberBare true [c8user]
          (preserve_roles 7 c8guild c8memberBare [c8vd])).2).1 = [] ∧
    assign_verified_roles c8cfg c8guild c8memberBare true [c8user] = [200] := by
  refine ⟨rfl, by decide, rfl, rfl, rfl⟩

/-- C8 (amended): for every subject with a profile whose current role
set minus the everyone role is non-empty, still resolves in the guild,
and whose role grant succeeds, `snapshot` followed by `restore` grants
exactly the snapshotted role set and clears the stored snapshot; a
second restore without an intervening snapshot then grants the
classifier-derived default role (as does a restore with no stored
snapshot), provided the subject's `users` row exists and the default
role resolves. -/
theorem snapshot_restore_round_trip (now : Nat) (cfg : RoleConfig)
    (g : Guild) (m : Member) (u : UserRec) (users : List UserRec)
    (vds : List VerData) (vd : VerData)
    (hv : findVer vds m.id = some vd)
    (hne : m.roles.filter (fun r => r != g.default_role_id) ≠ [])
    (hres : ∀ r ∈ m.roles.filter (fun r => r != g.default_role_id),
      g.hasRole r = true)
    (hu : findUser users m.id = some u)
    (hdef : g.hasRole (if u.type == 2 then cfg.teacher_role_id
      else cfg.student_role_id) = true) :
    (restore_roles cfg g m true users (preserve_roles now g m vds)).1
      = m.roles.filter (fun r => r != g.default_role_id) ∧
    findVer (restore_roles cfg g m true users (preserve_roles now g m vds)).2 m.id
      = some { vd with preserved_roles := none } ∧
    restore_roles cfg g m true users
        (restore_roles cfg g m true users (preserve_roles now g m vds)).2
      = ([if u.type == 2 then cfg.teacher_role_id else cfg.student_role_id],
         (restore_roles cfg g m true users (preserve_roles now g m vds)).2) ∧
    (vd.preserved_roles = none →
      restore_roles cfg g m true users vds
        = ([if u.type == 2 then cfg.teacher_role_id else cfg.student_role_id],
           vds)) := by
  have h1 := preserve_roles_of_profile now g m vds vd hv
  have hflt : (snapOf g m now).role_ids.filter g.hasRole
      = m.roles.filter (fun r => r != g.default_role_id) :=
    List.filter_eq_self.mpr hres
  have h2 := restore_roles_of_snapshot cfg g m users
    (preserve_roles now g m vds)
    { vd with preserved_roles := some (snapOf g m now) }
    (snapOf g m now) h1 rfl (by rw [hflt]; exact hne)
  rw [hflt] at h2
  have h3 : findVer (restore_roles cfg g m true users
      (preserve_roles now g m vds)).2 m.id
      = some { vd with preserved_roles := none } := by
    rw [h2]
    show findVer (updFirst _ _ _) m.id = _
    unfold findVer at h1 ⊢
    rw [find?_updFirst _ _ _ ?keep, h1]
    case keep =>
      intro a ha
      exact ha
    rfl
  refine ⟨by rw [h2], h3, ?_, ?_⟩
  · rw [restore_roles_of_no_snapshot cfg g m true users _ _ h3 rfl,
      assign_verified_roles_of_user cfg g m users u hu hdef]
  · intro hpn
    rw [restore_roles_of_no_snapshot cfg g m true users vds vd hv hpn,
      assign_verified_roles_of_user cfg g m users u hu hdef]

/-- C8 witness: the amended round trip on a subject holding the ordinary
roles 10 and 20 besides the everyone role. -/
theorem snapshot_restore_round_trip_witness :
    (restore_roles c8cfg c8guild c8member true [c8user]
        (preserve_roles 7 c8guild c8member [c8vd])).1
      = c8member.roles.filter (fun r => r != c8guild.default_role_id) ∧
    findVer (restore_roles c8cfg c8guild c8member true [c8user]
        (preserve_roles 7 c8guild c8member [c8vd])).2 c8member.id
      = some { c8vd with preserved_roles := none } :=
  ⟨(snapshot_restore_round_trip 7 c8cfg c8guild c8member c8user [c8user]
      [c8vd] c8vd (by decide) (by decide) (by decide) (by decide)
      (by decide)).1,
   (snapshot_restore_round_trip 7 c8cfg c8guild c8member c8user [c8user]
      [c8vd] c8vd (by decide) (by decide) (by decide) (by decide)
      (by decide)).2.1⟩

/-! ## C10 — restore keeps the snapshot unless the grant succeeds -/

/-- C10: `restore_roles` consumes the stored snapshot only on a
successful role grant: when the snapshot exists but its role-id list
filters to no resolvable role (in particular when it is empty), or when
the grant fails, the call grants nothing and returns the store
unchanged, the snapshot still in place for a later restore. -/
theorem restore_roles_keeps_snapshot (cfg : RoleConfig) (g : Guild)
    (m : Member) (addOk : Bool) (users : List UserRec) (vds : List VerData)
    (vd : VerData) (snap : RoleSnapshot)
    (hv : findVer vds m.id = some vd)
    (hs : vd.preserved_roles = some snap)
    (hfail : snap.role_ids.filter g.hasRole = [] ∨ addOk = false) :
    (restore_roles cfg g m addOk users vds).1 = [] ∧
    (restore_roles cfg g m addOk users vds).2 = vds := by
  unfold restore_roles
  split
  next hnone => rw [hv] at hnone; cases hnone
  next vd2 hsome =>
    rw [hv] at hsome
    injection hsome with h
    subst h
    split
    next hsn => rw [hs] at hsn; cases hsn
    next snap2 hsn =>
      rw [hs] at hsn
      injection hsn with h2
      subst h2
      rcases hfail with hf | hf
      · simp [hf]
      · subst hf
        by_cases hie : (snap.role_ids.filter g.hasRole).isEmpty = true
        · simp [hie]
        · simp [hie]

/-- A profile whose stored snapshot has an empty role-id list. -/
def vdEmptySnap : VerData :=
  { c8vd with preserved_roles := some { role_ids := [], preserved_at := 3 } }

/-- C10 witness: restoring over an empty stored snapshot grants nothing
and leaves the snapshot in place. -/
theorem restore_roles_keeps_snapshot_witness :
    (restore_roles c8cfg c8guild c8member true [c8user] [vdEmptySnap]).1 = [] ∧
    (restore_roles c8cfg c8guild c8member true [c8user] [vdEmptySnap]).2
      = [vdEmptySnap] :=
  restore_roles_keeps_snapshot c8cfg c8guild c8member true [c8user]
    [vdEmptySnap] vdEmptySnap { role_ids := [], preserved_at := 3 }
    (by decide) (by decide) (Or.inl (by decide))

/-! ## C9 — re-verification wave cohorts -/

/-- C9 counterexample: with 10 target-role holders, a 30 percent daily
batch rate and a 14-day window, the batch size is
`ceil(10 × 30 / 100) = 3`, yet the last cohort has 1 subject — the
per-day cohorts are not *each* sized `ceil(totalUsers ×
dailyBatchPercent / 100)`; only a weaker bound holds. -/
theorem createWave_counterexample :
    createWave [1, 2, 3, 4, 5, 6, 7, 8, 9, 10] 14 30
      = .ok [[1, 2, 3], [4, 5, 6], [7, 8, 9], [10]] ∧
    dailyBatchSize 10 30 = 3 ∧
    ¬ (∀ c ∈ [[1, 2, 3], [4, 5, 6], [7, 8, 9], [10]],
        List.length c = dailyBatchSize 10 30) := by
  refine ⟨rfl, rfl, by decide⟩

/-- C9 (amended, modelled from the spec — no `createWave` implementation
exists under src/, only the wave table declarations): wave creation
rejects `windowDays ≤ 0` or `dailyBatchPercent ≤ 0`; otherwise it
distributes the subjects into consecutive per-day cohorts each of **at
most** `ceil(totalUsers × dailyBatchPercent / 100)` subjects, the
cohorts concatenate back to the subject list (so the cohort sizes sum to
`totalUsers`), no subject appears in more than one cohort, and whenever
the window can hold the population
(`totalUsers ≤ batch × windowDays`) the cohorts fit in
`[today, today + windowDays)`. -/
theorem createWave_behavior :
    (∀ (subjects : List Nat) (wd p : Int), wd ≤ 0 ∨ p ≤ 0 →
      createWave subjects wd p = .error .invalidConfig) ∧
    (∀ (subjects : List Nat) (wd p : Int), 0 < wd → 0 < p →
      subjects.Nodup →
      subjects.length ≤ dailyBatchSize subjects.length p.toNat * wd.toNat →
      createWave subjects wd p
        = .ok (chunkList (dailyBatchSize subjects.length p.toNat) subjects) ∧
      (chunkList (dailyBatchSize subjects.length p.toNat) subjects).length
        ≤ wd.toNat ∧
      (∀ c ∈ chunkList (dailyBatchSize subjects.length p.toNat) subjects,
        c.length ≤ dailyBatchSize subjects.length p.toNat) ∧
      ((chunkList (dailyBatchSize subjects.length p.toNat) subjects).map
        List.length).sum = subjects.length ∧
      (chunkList (dailyBatchSize subjects.length p.toNat) subjects).flatten
        = subjects ∧
      List.Pairwise List.Disjoint
        (chunkList (dailyBatchSize subjects.length p.toNat) subjects)) := by
  constructor
  · intro subjects wd p hbad
    unfold createWave
    rw [if_pos hbad]
  · intro subjects wd p hwd hp hnd hfit
    have hok : createWave subjects wd p
        = .ok (chunkList (dailyBatchSize subjects.length p.toNat) subjects) := by
      unfold createWave
      rw [if_neg]
      intro hbad
      rcases hbad with hb | hb <;> omega
    have hflat : (chunkList (dailyBatchSize subjects.length p.toNat)
        subjects).flatten = subjects := chunkList_flatten _ _
    have hsum : ((chunkList (dailyBatchSize subjects.length p.toNat)
        subjects).map List.length).sum = subjects.length := by
      rw [← List.length_flatten, hflat]
    have hdisj : List.Pairwise List.Disjoint
        (chunkList (dailyBatchSize subjects.length p.toNat) subjects) := by
      have hnj : (chunkList (dailyBatchSize subjects.length p.toNat)
          subjects).flatten.Nodup := by
        rw [hflat]
        exact hnd
      exact (List.nodup_flatten.mp hnj).2
    cases hsub : subjects with
    | nil =>
      subst hsub
      exact ⟨hok, by simp [chunkList, chunkListFuel], by simp [chunkList, chunkListFuel],
        hsum, hflat, hdisj⟩
    | cons s rest =>
      have hb : 0 < dailyBatchSize subjects.length p.toNat := by
        have h1 : 1 ≤ subjects.length := by rw [hsub]; simp
        have h2 : 0 < p.toNat := by omega
        have h3 : 1 ≤ subjects.length * p.toNat := Nat.mul_pos h1 h2
        unfold dailyBatchSize ceilDiv
        omega
      rw [← hsub]
      exact ⟨hok, chunkList_count _ hb _ _ hfit, chunkList_sizes _ hb _,
        hsum, hflat, hdisj⟩

/-- C9 witness: rejection at `windowDays = 0`, and the amended cohort
invariants on the 10-subject, 30 percent, 14-day wave. -/
theorem createWave_behavior_witness :
    createWave [1, 2, 3] 0 50 = .error .invalidConfig ∧
    createWave [1, 2, 3, 4, 5, 6, 7, 8, 9, 10] 14 30
      = .ok (chunkList (dailyBatchSize 10 30) [1, 2, 3, 4, 5, 6, 7, 8, 9, 10]) ∧
    List.Pairwise List.Disjoint
      (chunkList (dailyBatchSize 10 30) [1, 2, 3, 4, 5, 6, 7, 8, 9, 10]) :=
  ⟨createWave_behavior.1 [1, 2, 3] 0 50 (Or.inl (by decide)),
   (createWave_behavior.2 [1, 2, 3, 4, 5, 6, 7, 8, 9, 10] 14 30
      (by decide) (by decide) (by decide) (by decide)).1,
   (createWave_behavior.2 [1, 2, 3, 4, 5, 6, 7, 8, 9, 10] 14 30
      (by decide) (by decide) (by decide) (by decide)).2.2.2.2.2⟩

end Gatekeeper
